import Mathlib

/-!
# Verification of StratoVirt core device-emulation code

Shallow embedding, in Lean 4, of the parts of the StratoVirt repository that
the checked claims are about:

* `vfio/src/vfio_pci.rs` — `VfioPciDevice::fixup_msix_region`, `read_config`,
  `write_config`;
* `virtio/src/net.rs` — `NetCtrlHandler::handle_ctrl`, `NetIoHandler::handle_rx`
  and its event-loop notifiers, `Net::write_config`;
* `machine_manager/src/config/balloon.rs` — `BalloonConfig::check`,
  `parse_balloon`.

Machine integers are embedded as `Nat` with explicit `% 2^w` where the source
truncates; guest memory is a byte function `Nat → Nat`; fallible Rust functions
return `Except`; `&mut` state is passed and returned explicitly.  External
collaborators that the source calls but that are not part of the repository
snapshot (`host_page_size`, tap `readv`, VFIO region reads/writes, KVM) are
modelled as parameters or as input streams.
-/

/-! ## VFIO data model (`vfio/src/vfio_pci.rs`) -/

/-- A mappable sub-range of a VFIO region (`vfio` crate's `MmapInfo`). -/
structure MmapInfo where
  offset : Nat
  size : Nat
deriving DecidableEq, Repr

/-- PCI BAR region kind (`pci` crate's `RegionType`). -/
inductive RegionType
  | Io
  | Mem32Bit
  | Mem64Bit
deriving DecidableEq, Repr

/-- The part of the `vfio` crate's `VfioRegion` that `fixup_msix_region`
touches: total region size and the list of mmap-able sub-ranges. -/
structure VfioRegion where
  size : Nat
  mmaps : List MmapInfo
deriving DecidableEq, Repr

/-- `VfioBar` from `vfio_pci.rs`. -/
structure VfioBar where
  vfio_region : VfioRegion
  region_type : RegionType
  size : Nat
deriving DecidableEq, Repr

/-- `MsixTable` from `vfio_pci.rs`: BAR index hosting the MSI-X table, byte
offset of the table within that BAR, and table size in bytes. -/
structure MsixTable where
  table_bar : Nat
  table_offset : Nat
  table_size : Nat
deriving DecidableEq, Repr

/-- Round `n` down to a multiple of `page`.  The source computes
`(n as i64) & (0 - page_size as i64)`; for the power-of-two page sizes
returned by `host_page_size()` this two's-complement mask equals flooring
to a multiple of `page`. -/
def align_down (n page : Nat) : Nat := n / page * page

/-- Round `n` up to a multiple of `page`.  The source computes
`((n + (page_size - 1)) as i64) & (0 - page_size as i64)`, which for
power-of-two `page` equals rounding up to a multiple of `page`. -/
def align_up (n page : Nat) : Nat := (n + page - 1) / page * page

/-- `VfioPciDevice::fixup_msix_region` (vfio_pci.rs:232-277).  `msix_info` is
`self.msix_info` (`None` makes the function fail), `page_size` is the external
`host_page_size()`, and the bar list is the `&mut Vec<VfioBar>` argument,
returned updated.  `none` models the error return (`chain_err` paths). -/
def fixup_msix_region (msix_info : Option MsixTable) (page_size : Nat)
    (vfio_bars : List VfioBar) : Option (List VfioBar) :=
  match msix_info with
  | none => none
  | some info =>
    match vfio_bars.get? info.table_bar with
    | none => none
    | some vfio_bar =>
      let region := vfio_bar.vfio_region
      -- If MSI-X area already setups or does not support mapping, just return.
      if region.mmaps.length ≠ 1 ∨ (region.mmaps.getD 0 ⟨0, 0⟩).offset ≠ 0 ∨
          region.size ≠ (region.mmaps.getD 0 ⟨0, 0⟩).size then
        some vfio_bars
      else
        -- Align MSI-X table start and end to host page size.
        let start := align_down info.table_offset page_size
        let stop := align_up (info.table_offset + info.table_size) page_size
        let mmaps :=
          if start = 0 then
            if region.size ≤ stop then ([] : List MmapInfo)
            else [⟨stop, region.size - stop⟩]
          else if region.size ≤ stop then
            [⟨(region.mmaps.getD 0 ⟨0, 0⟩).offset, start⟩]
          else
            [⟨0, start⟩, ⟨stop, region.size - stop⟩]
        some (vfio_bars.set info.table_bar
          { vfio_bar with vfio_region := { region with mmaps := mmaps } })

/-- The mmap list of bar `idx` after `fixup_msix_region`, when the call
succeeds and the index exists. -/
def mmapsAfterFixup (msix : Option MsixTable) (page : Nat) (bars : List VfioBar)
    (idx : Nat) : Option (List MmapInfo) :=
  (fixup_msix_region msix page bars).bind fun bs =>
    (bs.get? idx).map fun b => b.vfio_region.mmaps

/-- Checks the carve property of claim C1 on a resulting mmap list: at most two
sub-ranges, each inside `[0, size)` and disjoint from the page-aligned MSI-X
table `[align_down off page, align_up (off + tsz) page)`. -/
def carveOk (page off tsz size : Nat) (ms : List MmapInfo) : Bool :=
  decide (ms.length ≤ 2) &&
    ms.all fun m =>
      decide (m.offset + m.size ≤ size) &&
        (decide (m.offset + m.size ≤ align_down off page) ||
          decide (align_up (off + tsz) page ≤ m.offset))

/-- Bar list of the spec's scenario 6: BAR2 has size 0x4000 and a single
whole-region mmap descriptor. -/
def specBars : List VfioBar :=
  [⟨⟨0x1000, [⟨0, 0x1000⟩]⟩, RegionType.Mem32Bit, 0x1000⟩,
   ⟨⟨0, []⟩, RegionType.Io, 0⟩,
   ⟨⟨0x4000, [⟨0, 0x4000⟩]⟩, RegionType.Mem32Bit, 0x4000⟩]

/-- A single BAR whose MSI-X table offset (0x5000) lies beyond the region size
(0x4000). -/
def cexBars : List VfioBar :=
  [⟨⟨0x4000, [⟨0, 0x4000⟩]⟩, RegionType.Mem32Bit, 0x4000⟩]

/-- Claim C1 (amended): when the MSI-X table's BAR has exactly one mmap
descriptor with offset 0 covering the whole region, and the page-aligned table
start does not exceed the region size, `fixup_msix_region` replaces that BAR's
mmap list by at most two sub-ranges that exclude the page-aligned MSI-X table
and lie within `[0, region.size)`; and on the spec's scenario (BAR2 size
0x4000, table_offset 0x1000, table_size 0x80, page size 0x1000) the resulting
mmap list is `[{offset := 0, size := 0x1000}, {offset := 0x2000, size := 0x2000}]`. -/
theorem fixup_msix_region_carves :
    (∀ (page off tsz tb : Nat) (bars : List VfioBar) (bar : VfioBar),
      bars.get? tb = some bar →
      bar.vfio_region.mmaps = [⟨0, bar.vfio_region.size⟩] →
      0 < page →
      align_down off page ≤ bar.vfio_region.size →
      (mmapsAfterFixup (some ⟨tb, off, tsz⟩) page bars tb).isSome = true
      ∧ (mmapsAfterFixup (some ⟨tb, off, tsz⟩) page bars tb).all
          (carveOk page off tsz bar.vfio_region.size) = true)
    ∧ mmapsAfterFixup (some ⟨2, 0x1000, 0x80⟩) 0x1000 specBars 2
        = some [⟨0, 0x1000⟩, ⟨0x2000, 0x2000⟩] := by
  constructor
  · intro page off tsz tb bars bar hget hmm hpage hle
    have htb : tb < bars.length := by
      rcases List.get?_eq_some.1 hget with ⟨h, _⟩
      exact h
    unfold mmapsAfterFixup fixup_msix_region
    simp only [hget, hmm]
    have hset : ∀ b : VfioBar, (bars.set tb b)[tb]? = some b := by
      intro b
      rw [List.getElem?_set_self (by simpa using htb)]
    by_cases hs : align_down off page = 0 <;>
      by_cases he : bar.vfio_region.size ≤ align_up (off + tsz) page <;>
        simp [hs, he, hset, carveOk, Option.all] <;> omega
  · decide

/-- Claim C1 counterexample: with a table offset (0x5000) beyond the BAR's
region size (0x4000), the single mmap descriptor precondition holds but the
resulting mmap list `[{offset := 0, size := 0x5000}]` does not lie within
`[0, region.size)`, refuting the claim as stated. -/
theorem fixup_msix_region_oob_counterexample :
    mmapsAfterFixup (some ⟨0, 0x5000, 0x80⟩) 0x1000 cexBars 0 = some [⟨0, 0x5000⟩]
    ∧ carveOk 0x1000 0x5000 0x80 0x4000 [⟨0, 0x5000⟩] = false
    ∧ (0x4000 : Nat) < 0 + 0x5000 := by decide

/-- Witness for `fixup_msix_region_carves`: the universally quantified part
applied to the spec's scenario-6 input. -/
theorem fixup_msix_region_carves_witness :
    (mmapsAfterFixup (some ⟨2, 0x1000, 0x80⟩) 0x1000 specBars 2).isSome = true
    ∧ (mmapsAfterFixup (some ⟨2, 0x1000, 0x80⟩) 0x1000 specBars 2).all
        (carveOk 0x1000 0x1000 0x80 0x4000) = true :=
  fixup_msix_region_carves.1 0x1000 0x1000 0x80 2 specBars
    ⟨⟨0x4000, [⟨0, 0x4000⟩]⟩, RegionType.Mem32Bit, 0x4000⟩
    (by decide) (by decide) (by decide) (by decide)

/-! ## Virtio-net control queue (`virtio/src/net.rs`) -/

/-- One entry of an element's iovec: guest address and length
(virtio queue `ElemIovec`). -/
structure ElemIovec where
  addr : Nat
  len : Nat
deriving DecidableEq, Repr

/-- A parsed avail-ring element (virtio queue `Element`): head descriptor
index, descriptor count, and the read/write iovec lists. -/
structure Element where
  index : Nat
  desc_num : Nat
  out_iovec : List ElemIovec
  in_iovec : List ElemIovec
deriving DecidableEq, Repr

/-- Modelled from the spec: the virtio-net control-queue constants imported by
`net.rs` from the `virtio` crate root (outside `src/`).  The spec fixes class
`MQ` = 4, command `VQ_PAIRS_SET` = 0, the queue-pair bounds `[MIN=1,
MAX=0x8000]` and the `OK=0` status byte. -/
def VIRTIO_NET_CTRL_MQ : Nat := 4

/-- Modelled from the spec: `VIRTIO_NET_CTRL_MQ_VQ_PAIRS_SET` = 0. -/
def VIRTIO_NET_CTRL_MQ_VQ_PAIRS_SET : Nat := 0

/-- Modelled from the spec: `VIRTIO_NET_CTRL_MQ_VQ_PAIRS_MIN` = 1. -/
def VIRTIO_NET_CTRL_MQ_VQ_PAIRS_MIN : Nat := 1

/-- Modelled from the spec: `VIRTIO_NET_CTRL_MQ_VQ_PAIRS_MAX` = 0x8000. -/
def VIRTIO_NET_CTRL_MQ_VQ_PAIRS_MAX : Nat := 0x8000

/-- Modelled from the spec: the `OK=0` status byte. -/
def VIRTIO_NET_OK : Nat := 0

/-- Little-endian `u16` read from guest memory (`read_object::<u16>`). -/
def read_u16_le (mem : Nat → Nat) (addr : Nat) : Nat :=
  mem addr % 256 + 256 * (mem (addr + 1) % 256)

/-- The tail of `handle_ctrl` after the class/command checks: write the
`VIRTIO_NET_OK` status byte to the first `in_iovec` entry (if any) and account
it into `used_len`.  Returns the list of guest-memory byte writes performed and
the `add_used` entry `(elem.index, used_len)`. -/
def finishCtrl (elem : Element) (used0 : Nat) :
    Except String (List (Nat × Nat) × Option (Nat × Nat)) :=
  match elem.in_iovec.get? 0 with
  | some status =>
    Except.ok ([(status.addr, VIRTIO_NET_OK)], some (elem.index, used0 + status.len))
  | none => Except.ok ([], some (elem.index, used0))

/-- `NetCtrlHandler::handle_ctrl` (net.rs:115-186), given the element already
popped from the control queue.  Guest memory is the byte function `mem`; the
result carries the guest-memory writes and the `add_used` entry (`none` models
the early `Ok` return when `desc_num == 0`).  `Except.error` models `bail!` /
`?`; note no status byte is written on the error paths. -/
def handle_ctrl (mem : Nat → Nat) (elem : Element) :
    Except String (List (Nat × Nat) × Option (Nat × Nat)) :=
  if elem.desc_num = 0 then Except.ok ([], none)
  else
    match elem.out_iovec.get? 0 with
    | some ctrl_desc =>
      -- read_object::<CrtlHdr>: two bytes, class then cmd.
      let cls := mem ctrl_desc.addr % 256
      let cmd := mem (ctrl_desc.addr + 1) % 256
      if cls = VIRTIO_NET_CTRL_MQ then
        if cmd ≠ VIRTIO_NET_CTRL_MQ_VQ_PAIRS_SET then
          Except.error ("Control queue header command can't match "
            ++ toString VIRTIO_NET_CTRL_MQ_VQ_PAIRS_SET)
        else
          match elem.out_iovec.get? 1 with
          | some mq_desc =>
            let queue_pairs := read_u16_le mem mq_desc.addr
            if queue_pairs < VIRTIO_NET_CTRL_MQ_VQ_PAIRS_MIN ∨
                VIRTIO_NET_CTRL_MQ_VQ_PAIRS_MAX < queue_pairs then
              Except.error ("Invalid queue pairs " ++ toString queue_pairs)
            else finishCtrl elem (ctrl_desc.len + mq_desc.len)
          | none => finishCtrl elem ctrl_desc.len
      else
        Except.error ("Control queue header class can't match "
          ++ toString VIRTIO_NET_CTRL_MQ)
    | none => finishCtrl elem 0

/-- Guest memory for the C2 counterexample: the ctrl header at address 100 is
class 4 / cmd 0, and the queue-pair payload at address 200 reads as 0. -/
def c2Mem : Nat → Nat := fun a => if a = 100 then 4 else 0

/-- The C2 counterexample element: ctrl header out-descriptor, payload
out-descriptor, one status in-descriptor. -/
def c2Elem : Element := ⟨0, 3, [⟨100, 2⟩, ⟨200, 2⟩], [⟨300, 1⟩]⟩

/-- Guest memory for the C2 witness: class 4 / cmd 0 at address 100,
queue-pair count 2 at address 200. -/
def c2MemOk : Nat → Nat := fun a => if a = 100 then 4 else if a = 200 then 2 else 0

/-- Claim C2 (amended): for a control element whose header reads class 4
(`MQ`) / cmd 0 (`VQ_PAIRS_SET`) with a queue-pair payload descriptor and a
status in-descriptor, `handle_ctrl` writes the single OK=0 status byte to the
first `in_iovec` when the count lies in `[1, 0x8000]`, and fails with
`"Invalid queue pairs {n}"` — writing no status byte at all — otherwise. -/
theorem handle_ctrl_mq_set (mem : Nat → Nat) (elem : Element)
    (c0 c1 s0 : ElemIovec)
    (hdesc : elem.desc_num ≠ 0)
    (h0 : elem.out_iovec[0]? = some c0)
    (h1 : elem.out_iovec[1]? = some c1)
    (hin : elem.in_iovec[0]? = some s0)
    (hcls : mem c0.addr % 256 = 4)
    (hcmd : mem (c0.addr + 1) % 256 = 0) :
    handle_ctrl mem elem =
      (if read_u16_le mem c1.addr < 1 ∨ 0x8000 < read_u16_le mem c1.addr then
        Except.error ("Invalid queue pairs " ++ toString (read_u16_le mem c1.addr))
      else
        Except.ok ([(s0.addr, 0)], some (elem.index, c0.len + c1.len + s0.len))) := by
  unfold handle_ctrl
  simp [hdesc, h0, h1, hin, hcls, hcmd, finishCtrl, VIRTIO_NET_CTRL_MQ,
    VIRTIO_NET_CTRL_MQ_VQ_PAIRS_SET, VIRTIO_NET_CTRL_MQ_VQ_PAIRS_MIN,
    VIRTIO_NET_CTRL_MQ_VQ_PAIRS_MAX, VIRTIO_NET_OK]

/-- Claim C2 counterexample: on a class=4/cmd=0 element whose queue-pair count
reads 0, `handle_ctrl` returns the error `"Invalid queue pairs 0"` and performs
no guest-memory write — in particular no ERR=1 status byte is written to the
first `in_iovec`, contrary to the claim as stated. -/
theorem handle_ctrl_err_counterexample :
    handle_ctrl c2Mem c2Elem = Except.error "Invalid queue pairs 0" := by rfl

/-- Witness for `handle_ctrl_mq_set`: a queue-pair count of 2 succeeds and
writes the single OK byte. -/
theorem handle_ctrl_mq_set_witness :
    handle_ctrl c2MemOk c2Elem = Except.ok ([(300, 0)], some (0, 5)) := by
  rw [handle_ctrl_mq_set c2MemOk c2Elem ⟨100, 2⟩ ⟨200, 2⟩ ⟨300, 1⟩ (by decide)
    (by decide) (by decide) (by decide) (by decide) (by decide)]
  rfl

/-! ## Virtio-net rx path and event notifiers (`virtio/src/net.rs`) -/

/-- Outcome of one non-blocking `readv` on the tap fd: `ok n` for a read of
`n` bytes, `eagain` for `EAGAIN`/`EWOULDBLOCK`, `err` for any other negative
return. -/
inductive TapRead
  | ok (n : Nat)
  | eagain
  | err
deriving DecidableEq, Repr

/-- Event-notifier dispositions (`util::loop_context::NotifierOperation`). -/
inductive NotifierOp
  | AddShared
  | Modify
  | Park
  | Resume
  | Delete
deriving DecidableEq, Repr

/-- An event notifier returned by a callback: disposition and fd. -/
structure EventNotifier where
  op : NotifierOp
  fd : Nat
deriving DecidableEq, Repr

/-- The mutable state `handle_rx`'s loop threads: popped-but-unfinished avail
elements, used entries, the remaining tap input, the backpressure flag and the
interrupt count. -/
structure RxAux where
  used : List (Nat × Nat)
  tapReads : List TapRead
  queue_full : Bool
  irqs : Nat
deriving DecidableEq, Repr

/-- State of one `NetIoHandler` (net.rs:280-292) together with its rx queue
and tap input.  The rx avail ring is the list of elements from
`last_avail_idx` on (`pop_avail` takes the head; `push_back` — rewinding
`last_avail_idx` by one — re-prepends it); an exhausted `tapReads` stream
models a drained non-blocking tap, whose next `readv` returns `EAGAIN`. -/
structure NetState where
  avail : List Element
  used : List (Nat × Nat)
  tapReads : List TapRead
  queue_full : Bool
  is_listening : Bool
  tap : Option Nat
  irqs : Nat
deriving DecidableEq, Repr

/-- The `while` loop of `NetIoHandler::handle_rx` (net.rs:295-380), with the
tap known present.  `sn` is the `should_notify` oracle, consulted on the
used-ring length after each `add_used` (guest memory and the event-index
calculation are external to this file); a positive answer raises one vring
interrupt.  On a negative `readv` the element is pushed back first; `EAGAIN`
and other errors both break out of the loop (the extra draining `tap.read` of
the error path only logs). -/
def rxLoop (sn : Nat → Bool) : List Element → RxAux → List Element × RxAux
  | [], st => ([], { st with queue_full := true })
  | e :: rest, st =>
    if e.desc_num = 0 then (rest, st)
    else
      match st.tapReads with
      | [] => (e :: rest, st)
      | TapRead.ok n :: more =>
        let used := st.used ++ [(e.index, n)]
        let irqs := if sn used.length then st.irqs + 1 else st.irqs
        rxLoop sn rest { st with used := used, tapReads := more, irqs := irqs }
      | TapRead.eagain :: more => (e :: rest, { st with tapReads := more })
      | TapRead.err :: more => (e :: rest, { st with tapReads := more })

/-- `NetIoHandler::handle_rx` (net.rs:295-380): run the loop when a tap is
present (`while let Some(tap)`), otherwise do nothing. -/
def handle_rx (sn : Nat → Bool) (st : NetState) : NetState :=
  match st.tap with
  | none => st
  | some _ =>
    let r := rxLoop sn st.avail ⟨st.used, st.tapReads, st.queue_full, st.irqs⟩
    { st with
      avail := r.1
      used := r.2.used
      tapReads := r.2.tapReads
      queue_full := r.2.queue_full
      irqs := r.2.irqs }

/-- The tap-fd callback registered by `NetIoHandler::internal_notifiers`
(net.rs:632-668): run `handle_rx`, then, if a tap is present and the rx queue
filled up, return a Park notifier for the tap fd, clearing `is_listening` and
`queue_full`. -/
def tapEventHandler (sn : Nat → Bool) (st : NetState) :
    NetState × Option (List EventNotifier) :=
  let st1 := handle_rx sn st
  match st1.tap with
  | some fd =>
    if st1.queue_full then
      ({ st1 with is_listening := false, queue_full := false },
        some [⟨NotifierOp.Park, fd⟩])
    else (st1, none)
  | none => (st1, none)

/-- The rx queue-event callback registered by `NetIoHandler::internal_notifiers`
(net.rs:586-612): if a tap is present and it is not listening, return a Resume
notifier for the tap fd and set `is_listening` back to `true`. -/
def rxQueueEventHandler (st : NetState) : NetState × Option (List EventNotifier) :=
  match st.tap with
  | some fd =>
    if st.is_listening then (st, none)
    else ({ st with is_listening := true }, some [⟨NotifierOp.Resume, fd⟩])
  | none => (st, none)

/-- Claim C3: with a tap present, when `handle_rx` finds the avail ring empty
it sets `queue_full` and stops (leaving used entries and tap input alone); the
tap-fd callback then returns a Park notifier for the tap fd, clearing
`is_listening` and `queue_full`; and the rx queue-event callback, firing while
the tap is not listening, returns a Resume notifier for the tap fd and sets
`is_listening` back to `true`. -/
theorem net_rx_backpressure (sn : Nat → Bool) (st : NetState) (fd : Nat)
    (htap : st.tap = some fd) (hav : st.avail = [])
    (hlisten : st.is_listening = false) :
    handle_rx sn st = { st with queue_full := true }
    ∧ tapEventHandler sn st
        = ({ st with queue_full := false, is_listening := false },
           some [⟨NotifierOp.Park, fd⟩])
    ∧ rxQueueEventHandler st
        = ({ st with is_listening := true }, some [⟨NotifierOp.Resume, fd⟩]) := by
  rcases st with ⟨avail, used, tapReads, qf, lis, tap, irqs⟩
  simp only [NetState.mk.injEq] at htap hav hlisten ⊢
  subst htap hav hlisten
  simp [handle_rx, rxLoop, tapEventHandler, rxQueueEventHandler]

/-- Witness for `net_rx_backpressure` at a concrete empty-ring state. -/
theorem net_rx_backpressure_witness :
    handle_rx (fun _ => false) ⟨[], [], [], false, false, some 7, 0⟩
        = ⟨[], [], [], true, false, some 7, 0⟩
    ∧ tapEventHandler (fun _ => false) ⟨[], [], [], false, false, some 7, 0⟩
        = (⟨[], [], [], false, false, some 7, 0⟩, some [⟨NotifierOp.Park, 7⟩])
    ∧ rxQueueEventHandler ⟨[], [], [], false, false, some 7, 0⟩
        = (⟨[], [], [], false, true, some 7, 0⟩, some [⟨NotifierOp.Resume, 7⟩]) :=
  net_rx_backpressure (fun _ => false) ⟨[], [], [], false, false, some 7, 0⟩ 7
    rfl rfl rfl

/-- Claim C7: when the next `readv` on the tap comes back negative (`EAGAIN`
or another error) for the element just popped, `handle_rx` pushes the element
back — the avail list, and in particular its head, is unchanged — adds no used
entry for it, and breaks out, so the element is redelivered on the next
round. -/
theorem handle_rx_push_back (sn : Nat → Bool) (st : NetState) (fd : Nat)
    (e : Element) (rest : List Element) (r : TapRead) (more : List TapRead)
    (htap : st.tap = some fd) (hav : st.avail = e :: rest)
    (hdesc : e.desc_num ≠ 0) (hr : st.tapReads = r :: more)
    (hneg : r = TapRead.eagain ∨ r = TapRead.err) :
    handle_rx sn st = { st with tapReads := more }
    ∧ (handle_rx sn st).avail.head? = some e
    ∧ (handle_rx sn st).used = st.used := by
  rcases st with ⟨avail, used, tapReads, qf, lis, tap, irqs⟩
  simp only [NetState.mk.injEq] at htap hav hr ⊢
  subst htap hav hr
  rcases hneg with h | h <;> subst h <;> simp [handle_rx, rxLoop, hdesc]

/-- Witness for `handle_rx_push_back`: one pending element, tap returning
`EAGAIN`. -/
theorem handle_rx_push_back_witness :
    handle_rx (fun _ => true)
        ⟨[⟨1, 1, [], [⟨50, 10⟩]⟩], [], [TapRead.eagain], false, true, some 7, 0⟩
      = ⟨[⟨1, 1, [], [⟨50, 10⟩]⟩], [], [], false, true, some 7, 0⟩
    ∧ (handle_rx (fun _ => true)
        ⟨[⟨1, 1, [], [⟨50, 10⟩]⟩], [], [TapRead.eagain], false, true, some 7, 0⟩).avail.head?
      = some ⟨1, 1, [], [⟨50, 10⟩]⟩
    ∧ (handle_rx (fun _ => true)
        ⟨[⟨1, 1, [], [⟨50, 10⟩]⟩], [], [TapRead.eagain], false, true, some 7, 0⟩).used
      = ([] : List (Nat × Nat)) :=
  handle_rx_push_back (fun _ => true)
    ⟨[⟨1, 1, [], [⟨50, 10⟩]⟩], [], [TapRead.eagain], false, true, some 7, 0⟩ 7
    ⟨1, 1, [], [⟨50, 10⟩]⟩ [] TapRead.eagain [] rfl rfl (by decide) rfl (Or.inl rfl)

/-! ## VFIO PCI config-space access (`vfio/src/vfio_pci.rs`) -/

/-- Little-endian `u16` read from a config byte buffer (`le_read_u16`). -/
def read_u16_list (cfg : List Nat) (a : Nat) : Nat :=
  cfg.getD a 0 % 256 + 256 * (cfg.getD (a + 1) 0 % 256)

/-- Little-endian `u32` read from a config byte buffer (`le_read_u32`). -/
def read_u32_list (cfg : List Nat) (a : Nat) : Nat :=
  cfg.getD a 0 % 256 + 256 * (cfg.getD (a + 1) 0 % 256)
    + 65536 * (cfg.getD (a + 2) 0 % 256) + 16777216 * (cfg.getD (a + 3) 0 % 256)

/-- Little-endian `u32` read of a write's data slice
(`LittleEndian::read_u32(data)`). -/
def data_u32 (data : List Nat) : Nat :=
  data.getD 0 0 % 256 + 256 * (data.getD 1 0 % 256)
    + 65536 * (data.getD 2 0 % 256) + 16777216 * (data.getD 3 0 % 256)

/-- Modelled from the spec: the `util` crate's `ranges_overlap(start, end,
region_start, region_end)` — outside `src/` — tests whether the half-open
intervals `[s1, e1)` and `[s2, e2)` intersect. -/
def ranges_overlap (s1 e1 s2 e2 : Nat) : Bool :=
  decide (s1 < e2) && decide (s2 < e1)

/-- Modelled from the spec (§4.6): one byte of `PciConfig::write` — outside
`src/` — `new = (old & !mask) | (incoming & mask)` followed by
`new &= !(incoming & write_clear_mask)`.  `255 - x` is the one's complement
within a byte. -/
def pci_config_write_byte (old mask clear incoming : Nat) : Nat :=
  Nat.land
    (Nat.lor (Nat.land (old % 256) (255 - mask % 256))
      (Nat.land (incoming % 256) (mask % 256)))
    (255 - Nat.land (incoming % 256) (clear % 256))

/-- Modelled from the spec (§4.6): `PciConfig::write(offset, data, ..)` applied
to the emulated config bytes under the write mask and write-clear mask. -/
def pci_config_write (mask clear config : List Nat) (offset : Nat)
    (data : List Nat) : List Nat :=
  (List.range config.length).map fun p =>
    if offset ≤ p ∧ p < offset + data.length then
      pci_config_write_byte (config.getD p 0) (mask.getD p 0) (clear.getD p 0)
        (data.getD (p - offset) 0)
    else config.getD p 0

/-- Modelled from the spec: the `pci` crate's `is_msix_enabled` — outside
`src/` — reads the MSI-X message-control word at `cap_offset + 2` and tests
the standard enable bit (bit 15). -/
def is_msix_enabled (cap_offset : Nat) (config : List Nat) : Bool :=
  Nat.testBit (read_u16_list config (cap_offset + 2)) 15

/-- Modelled from the spec (§4.6): `PciConfig::read` — outside `src/` — copies
`len` bytes of the emulated config buffer starting at `offset`. -/
def pci_emulated_read (emu : List Nat) (offset len : Nat) : List Nat :=
  (List.range len).map fun i => emu.getD (offset + i) 0

/-- `VfioPciDevice::read_config` (vfio_pci.rs:342-374).  `emu` is the emulated
`pci_config.config`, `host` the host device's config-region bytes (reads of it
are external I/O, assumed in-range bytes via `% 256`), `host_read_ok` the
outcome of `read_region`.  The caller's buffer `buf` is returned: untouched on
the guard or host-error paths, filled otherwise.  Offsets `[0x10, 0x28)` (the
BAR registers) are served from the emulated config; host-served bytes mask
offset 0x3d (INTx pin, cleared) and bit 7 of offset 0x0e (multi-function). -/
def vfio_read_config (config_size : Nat) (emu : List Nat) (host : Nat → Nat)
    (host_read_ok : Bool) (offset : Nat) (buf : List Nat) : List Nat :=
  if config_size < offset + buf.length ∨ 4 < buf.length then buf
  else if 0x10 ≤ offset ∧ offset < 0x28 then pci_emulated_read emu offset buf.length
  else if host_read_ok = false then buf
  else
    (List.range buf.length).map fun i =>
      let b := host (offset + i) % 256
      if offset + i = 0x3d then 0
      else if offset + i = 0x0e then Nat.land b 0x7f
      else b

/-- Which MSI-X irqfd routine `write_config` invoked. -/
inductive MsixAction
  | noAction
  | enable
  | disable
deriving DecidableEq, Repr

/-- The outcome of `VfioPciDevice::write_config`: the emulated config bytes,
the host-device region writes performed (offset, data), the MSI-X
enable/disable call made, and whether BAR remapping was re-run. -/
structure WriteEffect where
  config : List Nat
  hostWrites : List (Nat × List Nat)
  msixAction : MsixAction
  barUpdate : Bool
deriving DecidableEq, Repr

/-- `VfioPciDevice::write_config` (vfio_pci.rs:377-459).  `msix_cap` is the
MSI-X capability offset cached in `pci_config.msix` (`getD 0` mirrors the
`cap_offset = 0` default when absent); `host_write_ok` is the outcome of the
forwarding `write_region`.  The guard rejects accesses larger than 4 bytes or
past `config_size`; then the write is forwarded to the host device, and the
COMMAND / BAR / MSI-X-capability windows are demultiplexed in that order.
`vfio_enable_msix` is called on a disabled→enabled transition of the MSI-X
enable bit, `vfio_disable_msix` on enabled→disabled. -/
def vfio_write_config (config_size : Nat) (mask clear : List Nat)
    (msix_cap : Option Nat) (host_write_ok : Bool) (config : List Nat)
    (offset : Nat) (data : List Nat) : WriteEffect :=
  if config_size < offset + data.length ∨ 4 < data.length then
    ⟨config, [], MsixAction.noAction, false⟩
  else if host_write_ok = false then
    ⟨config, [(offset, data)], MsixAction.noAction, false⟩
  else
    let e := offset + data.length
    let cap_offset := msix_cap.getD 0
    if ranges_overlap offset e 0x04 0x08 then
      let cfg := pci_config_write mask clear config offset data
      ⟨cfg, [(offset, data)], MsixAction.noAction,
        Nat.testBit (read_u32_list cfg offset) 1⟩
    else if ranges_overlap offset e 0x10 0x28 then
      let cfg := pci_config_write mask clear config offset data
      ⟨cfg, [(offset, data)], MsixAction.noAction,
        decide (data.length = 4) && decide (data_u32 data ≠ 0xffffffff)⟩
    else if ranges_overlap offset e cap_offset (cap_offset + 12) then
      let was := is_msix_enabled cap_offset config
      let cfg := pci_config_write mask clear config offset data
      let isen := is_msix_enabled cap_offset cfg
      ⟨cfg, [(offset, data)],
        if was = false ∧ isen = true then MsixAction.enable
        else if was = true ∧ isen = false then MsixAction.disable
        else MsixAction.noAction, false⟩
    else
      ⟨pci_config_write mask clear config offset data, [(offset, data)],
        MsixAction.noAction, false⟩

/-- `getD` of a map over `List.range` evaluates the mapped function. -/
theorem getD_map_range {α : Type} [Inhabited α] (g : Nat → α) (d : α) (n i : Nat)
    (hi : i < n) : (((List.range n).map g).getD i d) = g i := by
  rw [List.getD_eq_getElem?_getD, List.getElem?_map, List.getElem?_range hi]
  rfl

/-- Claim C4: for a `write_config` that passes the size/range guard, succeeds
on the host device and overlaps the MSI-X capability (at a standard capability
offset, past the BAR registers), `vfio_enable_msix` is invoked iff the MSI-X
enable bit was clear before the emulated-config write and set after it,
`vfio_disable_msix` iff it was set before and clear after, and neither when
the bit is unchanged. -/
theorem vfio_write_config_msix_transitions (config_size cap offset : Nat)
    (mask clear config data : List Nat)
    (hcap : 0x2C ≤ cap) (hsz : data.length ≤ 4)
    (hend : offset + data.length ≤ config_size)
    (hov : ranges_overlap offset (offset + data.length) cap (cap + 12) = true) :
    ((vfio_write_config config_size mask clear (some cap) true config offset
        data).msixAction = MsixAction.enable
      ↔ (is_msix_enabled cap config = false
          ∧ is_msix_enabled cap (pci_config_write mask clear config offset data) = true))
    ∧ ((vfio_write_config config_size mask clear (some cap) true config offset
        data).msixAction = MsixAction.disable
      ↔ (is_msix_enabled cap config = true
          ∧ is_msix_enabled cap (pci_config_write mask clear config offset data) = false))
    ∧ ((vfio_write_config config_size mask clear (some cap) true config offset
        data).msixAction = MsixAction.noAction
      ↔ is_msix_enabled cap config
          = is_msix_enabled cap (pci_config_write mask clear config offset data)) := by
  simp only [ranges_overlap, Bool.and_eq_true, decide_eq_true_eq] at hov
  have hoff : 0x29 ≤ offset := by omega
  have hcmd : ranges_overlap offset (offset + data.length) 0x04 0x08 = false := by
    simp only [ranges_overlap, Bool.and_eq_false_iff, decide_eq_false_iff_not]
    omega
  have hbar : ranges_overlap offset (offset + data.length) 0x10 0x28 = false := by
    simp only [ranges_overlap, Bool.and_eq_false_iff, decide_eq_false_iff_not]
    omega
  have hguard : ¬(config_size < offset + data.length ∨ 4 < data.length) := by omega
  have hov' : ranges_overlap offset (offset + data.length) cap (cap + 12) = true := by
    simp only [ranges_overlap, Bool.and_eq_true, decide_eq_true_eq]
    omega
  unfold vfio_write_config
  rw [if_neg hguard, if_neg (by decide)]
  simp only [Option.getD_some, hcmd, hbar, hov', Bool.false_eq_true, if_false, if_true]
  by_cases hwas : is_msix_enabled cap config = true <;>
    by_cases hisen :
        is_msix_enabled cap (pci_config_write mask clear config offset data) = true <;>
      simp only [Bool.not_eq_true] at hwas hisen <;>
        simp [hwas, hisen]

/-- Mask list for the C4 witness: all bits guest-writable. -/
def c4Mask : List Nat := List.replicate 0x30 255

/-- Clear mask list for the C4 witness: no write-1-to-clear bits. -/
def c4Clear : List Nat := List.replicate 0x30 0

/-- Config bytes for the C4 witness: all zero (MSI-X disabled). -/
def c4Config : List Nat := List.replicate 0x30 0

/-- Witness for `vfio_write_config_msix_transitions`: writing 0x8000 into the
MSI-X message control word at capability offset 0x2C enables MSI-X, so
`vfio_enable_msix` is invoked. -/
theorem vfio_write_config_msix_transitions_witness :
    (vfio_write_config 0x100 c4Mask c4Clear (some 0x2C) true c4Config 0x2E
        [0x00, 0x80]).msixAction = MsixAction.enable :=
  (vfio_write_config_msix_transitions 0x100 0x2C 0x2E c4Mask c4Clear c4Config
      [0x00, 0x80] (by decide) (by decide) (by decide) (by decide)).1.mpr
    ⟨by decide, by decide⟩

/-- Claim C8: a successful `read_config` that passes the guard and is served
from the host device (its start offset is outside the BAR register window)
returns 0 for the byte at config offset 0x3d (INTx pin) and a byte with bit 7
clear at offset 0x0e (multi-function bit), whatever the host reported. -/
theorem vfio_read_config_masks (config_size offset : Nat) (emu : List Nat)
    (host : Nat → Nat) (buf : List Nat)
    (hg1 : offset + buf.length ≤ config_size) (hg2 : buf.length ≤ 4)
    (hbar : ¬(0x10 ≤ offset ∧ offset < 0x28)) :
    (∀ i, i < buf.length → offset + i = 0x3d →
      (vfio_read_config config_size emu host true offset buf).getD i 0 = 0)
    ∧ (∀ i, i < buf.length → offset + i = 0x0e →
      Nat.testBit
        ((vfio_read_config config_size emu host true offset buf).getD i 0) 7
        = false) := by
  have hguard : ¬(config_size < offset + buf.length ∨ 4 < buf.length) := by omega
  unfold vfio_read_config
  rw [if_neg hguard, if_neg hbar, if_neg (by decide)]
  constructor
  · intro i hi h3d
    rw [getD_map_range _ _ _ _ hi]
    simp [h3d]
  · intro i hi h0e
    rw [getD_map_range _ _ _ _ hi]
    have hne : offset + i ≠ 0x3d := by omega
    simp only [h0e, hne, if_false, if_true, reduceIte]
    have hland : ∀ x : Nat, (Nat.land x 127).testBit 7 = false := by
      intro x
      have hx : Nat.land x 127 = x &&& 127 := rfl
      rw [hx, Nat.testBit_land]
      simp [show Nat.testBit 127 7 = false from by decide]
    exact hland _

/-- Witness for `vfio_read_config_masks`: a 2-byte host-served read at offset
0x3c of a device reporting 0xff everywhere returns 0 for the INTx-pin byte. -/
theorem vfio_read_config_masks_witness :
    (vfio_read_config 0x100 [] (fun _ => 0xff) true 0x3c [9, 9]).getD 1 0 = 0 :=
  (vfio_read_config_masks 0x100 0x3c [] (fun _ => 0xff) [9, 9] (by decide)
    (by decide) (by decide)).1 1 (by decide) (by decide)

/-- Claim C10: a `read_config` or `write_config` whose access is larger than 4
bytes or extends past `config_size` returns without doing anything: the read
leaves the caller's buffer untouched, and the write changes neither the
emulated config bytes nor the host device (no region write, no MSI-X action,
no BAR remap). -/
theorem vfio_config_access_guard (config_size offset n : Nat)
    (emu mask clear config : List Nat) (host : Nat → Nat) (hok hwok : Bool)
    (msix_cap : Option Nat) (buf data : List Nat)
    (hbuf : buf.length = n) (hdata : data.length = n)
    (hg : 4 < n ∨ config_size < offset + n) :
    vfio_read_config config_size emu host hok offset buf = buf
    ∧ vfio_write_config config_size mask clear msix_cap hwok config offset data
        = ⟨config, [], MsixAction.noAction, false⟩ := by
  subst hbuf
  have hr : config_size < offset + buf.length ∨ 4 < buf.length := by omega
  have hw : config_size < offset + data.length ∨ 4 < data.length := by omega
  constructor
  · unfold vfio_read_config
    rw [if_pos hr]
  · unfold vfio_write_config
    rw [if_pos hw]

/-- Witness for `vfio_config_access_guard`: a 5-byte access is rejected and
has no effect. -/
theorem vfio_config_access_guard_witness :
    vfio_read_config 0x100 [] (fun _ => 3) true 0 [0, 0, 0, 0, 0] = [0, 0, 0, 0, 0]
    ∧ vfio_write_config 0x100 [] [] none true [7] 0 [1, 2, 3, 4, 5]
        = ⟨[7], [], MsixAction.noAction, false⟩ :=
  vfio_config_access_guard 0x100 0 5 [] [] [] [7] (fun _ => 3) true true none
    [0, 0, 0, 0, 0] [1, 2, 3, 4, 5] (by decide) (by decide) (Or.inl (by decide))

/-! ## Virtio-net device config space (`virtio/src/net.rs`) -/

/-- Modelled from the spec: the virtio feature-bit positions imported by
`net.rs` from the `virtio` crate root (outside `src/`): standard virtio 1.1
values `VIRTIO_NET_F_CTRL_MAC_ADDR` = 23 and `VIRTIO_F_VERSION_1` = 32. -/
def VIRTIO_NET_F_CTRL_MAC_ADDR : Nat := 23

/-- Modelled from the spec: `VIRTIO_F_VERSION_1` = 32. -/
def VIRTIO_F_VERSION_1 : Nat := 32

/-- `virtio_has_feature(features, bit)`: bit test on the feature word. -/
def virtio_has_feature (features bit : Nat) : Bool := Nat.testBit features bit

/-- `Net::write_config` (net.rs:979-992).  `config` is the byte view of
`state.config_space` (17 bytes for `VirtioNetConfig`); the new bytes are
returned.  The MAC is overwritten only when neither
`VIRTIO_NET_F_CTRL_MAC_ADDR` nor `VIRTIO_F_VERSION_1` was negotiated, the
write is exactly the 6 MAC bytes at offset 0 and differs from the current MAC;
the function returns `Ok` on every path. -/
def net_write_config (driver_features : Nat) (config : List Nat) (offset : Nat)
    (data : List Nat) : Except String (List Nat) :=
  if ¬ virtio_has_feature driver_features VIRTIO_NET_F_CTRL_MAC_ADDR = true
      ∧ ¬ virtio_has_feature driver_features VIRTIO_F_VERSION_1 = true
      ∧ offset = 0 ∧ data.length = 6 ∧ data ≠ config.take data.length then
    Except.ok (data ++ config.drop data.length)
  else
    Except.ok config

/-- Claim C9: `Net::write_config` always returns `Ok`; the config space is
unchanged unless the driver negotiated neither `VIRTIO_NET_F_CTRL_MAC_ADDR`
nor `VIRTIO_F_VERSION_1`, the offset is 0, the data is exactly 6 bytes and
differs from the current MAC — and in that one case exactly the 6 MAC bytes
are overwritten (bytes past the MAC, and the buffer length, never change). -/
theorem net_write_config_frame (f : Nat) (config data : List Nat) (offset : Nat)
    (hlen : 6 ≤ config.length) :
    net_write_config f config offset data
      = Except.ok (if ¬ Nat.testBit f 23 ∧ ¬ Nat.testBit f 32 ∧ offset = 0
          ∧ data.length = 6 ∧ data ≠ config.take data.length
        then data ++ config.drop 6 else config)
    ∧ (if ¬ Nat.testBit f 23 ∧ ¬ Nat.testBit f 32 ∧ offset = 0
          ∧ data.length = 6 ∧ data ≠ config.take data.length
        then data ++ config.drop 6 else config).drop 6 = config.drop 6
    ∧ (if ¬ Nat.testBit f 23 ∧ ¬ Nat.testBit f 32 ∧ offset = 0
          ∧ data.length = 6 ∧ data ≠ config.take data.length
        then data ++ config.drop 6 else config).length = config.length := by
  by_cases h : ¬ Nat.testBit f 23 ∧ ¬ Nat.testBit f 32 ∧ offset = 0
      ∧ data.length = 6 ∧ data ≠ config.take data.length
  · obtain ⟨h23, h32, hoff, hdl, hne⟩ := h
    refine ⟨?_, ?_, ?_⟩
    · rw [if_pos ⟨h23, h32, hoff, hdl, hne⟩]
      unfold net_write_config virtio_has_feature
      rw [if_pos ⟨by simpa using h23, by simpa using h32, hoff, hdl, hne⟩, hdl]
    · rw [if_pos ⟨h23, h32, hoff, hdl, hne⟩, List.drop_append_of_le_length (by omega)]
      simp [hdl]
    · rw [if_pos ⟨h23, h32, hoff, hdl, hne⟩]
      simp [hdl]
      omega
  · refine ⟨?_, by rw [if_neg h], by rw [if_neg h]⟩
    rw [if_neg h]
    unfold net_write_config virtio_has_feature
    rw [if_neg (by simpa using h)]

/-- Witness for `net_write_config_frame`: with no features negotiated, a
6-byte MAC write at offset 0 replaces exactly the first 6 bytes. -/
theorem net_write_config_frame_witness :
    net_write_config 0 (List.replicate 17 0) 0 [1, 2, 3, 4, 5, 6]
      = Except.ok ([1, 2, 3, 4, 5, 6] ++ List.replicate 11 0) := by
  rw [(net_write_config_frame 0 (List.replicate 17 0) [1, 2, 3, 4, 5, 6] 0
    (by decide)).1, if_pos (by decide)]
  rfl

/-! ## Balloon configuration (`machine_manager/src/config/balloon.rs`) -/

/-- The `ConfigError` variants `balloon.rs` produces.  `IllegalValue` carries
the argument name, the bounds and their exclusivity flags, as in the source. -/
inductive ConfigError
  | IllegalValue (arg : String) (lo : Nat) (loExcl : Bool) (hi : Nat) (hiExcl : Bool)
  | StringTooLong (arg : String) (maxLen : Nat)
deriving DecidableEq, Repr

/-- `BalloonConfig` (balloon.rs:27-34). -/
structure BalloonConfig where
  id : String
  deflate_on_oom : Bool
  free_page_reporting : Bool
  auto_balloon : Bool
  membuf_percent : Nat
  monitor_interval : Nat
deriving DecidableEq, Repr

/-- Modelled from the spec: `check_arg_too_long` (outside `src/`) rejects an
over-long argument string; the claims only assume the id length is acceptable,
so the exact bound (255 here) is immaterial to them. -/
def check_arg_too_long (arg : String) (name : String) : Except ConfigError Unit :=
  if 255 < arg.length then Except.error (ConfigError.StringTooLong name 255)
  else Except.ok ()

/-- `BalloonConfig::check` (balloon.rs:37-66): accept any config when
`auto_balloon` is off; otherwise `membuf_percent` must lie in `[20, 80]` and
`monitor_interval` in `[5, 300]`. -/
def BalloonConfig.check (c : BalloonConfig) : Except ConfigError Unit :=
  match check_arg_too_long c.id "balloon id" with
  | Except.error e => Except.error e
  | Except.ok _ =>
    if c.auto_balloon = false then Except.ok ()
    else if 80 < c.membuf_percent ∨ c.membuf_percent < 20 then
      Except.error (ConfigError.IllegalValue "balloon membuf-percent" 20 false 80 false)
    else if 300 < c.monitor_interval ∨ c.monitor_interval < 5 then
      Except.error (ConfigError.IllegalValue "balloon monitor-interval" 5 false 300 false)
    else Except.ok ()

/-- The balloon options extracted by the external `CmdParser` from the command
line (`cmd_parser.get_value` results), plus the outcomes of the external
`CmdParser::parse` and `pci_args_check` calls, which are outside `src/` and
modelled from the spec as boolean oracles. -/
structure BalloonArgs where
  deflate_on_oom : Option Bool
  free_page_reporting : Option Bool
  id : Option String
  auto_balloon : Option Bool
  membuf_percent : Option Nat
  monitor_interval : Option Nat
  parse_ok : Bool
  pci_args_ok : Bool
deriving DecidableEq, Repr

/-- Errors out of `parse_balloon`: a plain message (`bail!` or an external
parser error) or a `ConfigError` from `check`. -/
inductive BalloonParseError
  | msg (s : String)
  | config (e : ConfigError)
deriving DecidableEq, Repr

/-- `parse_balloon` (balloon.rs:69-115).  The VM's `dev_name` map is passed
and returned explicitly (association list).  A second balloon is rejected
first; then the external command parsing and PCI-argument checks run; the
config is built from defaults (`membuf_percent` 50, `monitor_interval` 10,
`Default::default()` elsewhere) overridden by the present options; `check`
runs; and only on success is the `"balloon"` key inserted into `dev_name`. -/
def parse_balloon (dev_name : List (String × Nat)) (args : BalloonArgs) :
    Except BalloonParseError BalloonConfig × List (String × Nat) :=
  if (dev_name.lookup "balloon").isSome then
    (Except.error (BalloonParseError.msg
      "Only one balloon device is supported for each vm."), dev_name)
  else if args.parse_ok = false then
    (Except.error (BalloonParseError.msg "command parse error"), dev_name)
  else if args.pci_args_ok = false then
    (Except.error (BalloonParseError.msg "pci args check error"), dev_name)
  else
    let balloon : BalloonConfig :=
      { id := args.id.getD ""
        deflate_on_oom := args.deflate_on_oom.getD false
        free_page_reporting := args.free_page_reporting.getD false
        auto_balloon := args.auto_balloon.getD false
        membuf_percent := args.membuf_percent.getD 50
        monitor_interval := args.monitor_interval.getD 10 }
    match balloon.check with
    | Except.error e => (Except.error (BalloonParseError.config e), dev_name)
    | Except.ok _ => (Except.ok balloon, ("balloon", 1) :: dev_name)

/-- The parsed options of the spec's scenario-3 command line
`"virtio-balloon-device,auto-balloon=true,membuf-percent=10,id=b"`. -/
def c5Args : BalloonArgs :=
  ⟨none, none, some "b", some true, some 10, none, true, true⟩

/-- `true` iff the `Except` result is `ok`. -/
def exceptOk {ε α : Type} : Except ε α → Bool
  | Except.ok _ => true
  | Except.error _ => false

/-- Claim C5: with an acceptable id length, `check` succeeds whenever
`auto_balloon` is off, and with `auto_balloon` on it fails with `IllegalValue`
exactly when `membuf_percent` lies outside `[20, 80]` or `monitor_interval`
outside `[5, 300]` (naming the offending option); and parsing the spec's
scenario-3 line, whose options are `auto-balloon=true, membuf-percent=10,
id=b`, fails with `IllegalValue` for `membuf-percent`'s `[20, 80]` range. -/
theorem balloon_check_ranges :
    (∀ c : BalloonConfig, c.id.length ≤ 255 →
      c.check = (if c.auto_balloon = false then Except.ok ()
        else if 80 < c.membuf_percent ∨ c.membuf_percent < 20 then
          Except.error
            (ConfigError.IllegalValue "balloon membuf-percent" 20 false 80 false)
        else if 300 < c.monitor_interval ∨ c.monitor_interval < 5 then
          Except.error
            (ConfigError.IllegalValue "balloon monitor-interval" 5 false 300 false)
        else Except.ok ()))
    ∧ (parse_balloon [] c5Args).1
        = Except.error (BalloonParseError.config
            (ConfigError.IllegalValue "balloon membuf-percent" 20 false 80 false)) := by
  constructor
  · intro c hid
    unfold BalloonConfig.check check_arg_too_long
    rw [if_neg (by omega)]
  · rfl

/-- Witness for `balloon_check_ranges`: `auto_balloon` on with
`membuf_percent` 10 fails with the membuf-percent `IllegalValue`. -/
theorem balloon_check_ranges_witness :
    BalloonConfig.check ⟨"b", false, false, true, 10, 10⟩
      = Except.error
          (ConfigError.IllegalValue "balloon membuf-percent" 20 false 80 false) := by
  rw [balloon_check_ranges.1 ⟨"b", false, false, true, 10, 10⟩ (by decide)]
  rfl

/-- Claim C6: `parse_balloon` on a VM whose `dev_name` map already holds the
`"balloon"` key fails with "Only one balloon device is supported" (the
source's full message appends " for each vm."), leaving `dev_name` unchanged;
and in general the `"balloon"` key is inserted exactly when the parse
succeeds, so any failure leaves `dev_name` unchanged. -/
theorem parse_balloon_unique_and_frame :
    (∀ (dn : List (String × Nat)) (args : BalloonArgs),
      (dn.lookup "balloon").isSome = true →
      parse_balloon dn args
        = (Except.error (BalloonParseError.msg
            ("Only one balloon device is supported" ++ " for each vm.")), dn))
    ∧ (∀ (dn : List (String × Nat)) (args : BalloonArgs),
      (parse_balloon dn args).2
        = (if exceptOk (parse_balloon dn args).1 then ("balloon", 1) :: dn
           else dn)) := by
  constructor
  · intro dn args h
    unfold parse_balloon
    rw [if_pos h]
    rfl
  · intro dn args
    unfold parse_balloon
    by_cases h1 : (dn.lookup "balloon").isSome = true
    · simp [h1, exceptOk]
    · by_cases h2 : args.parse_ok = false
      · simp [h1, h2, exceptOk]
      · by_cases h3 : args.pci_args_ok = false
        · simp [h1, h2, h3, exceptOk]
        · simp only [h1, h2, h3, if_false, ite_false]
          cases hc : BalloonConfig.check
              { id := args.id.getD ""
                deflate_on_oom := args.deflate_on_oom.getD false
                free_page_reporting := args.free_page_reporting.getD false
                auto_balloon := args.auto_balloon.getD false
                membuf_percent := args.membuf_percent.getD 50
                monitor_interval := args.monitor_interval.getD 10 } <;>
            simp [h1, h2, h3, hc, exceptOk]

/-- Witness for `parse_balloon_unique_and_frame`: a second balloon is rejected
with the uniqueness message and `dev_name` untouched; a parse on an empty map
inserts the key iff it succeeded. -/
theorem parse_balloon_unique_and_frame_witness :
    parse_balloon [("balloon", 1)] c5Args
      = (Except.error (BalloonParseError.msg
          ("Only one balloon device is supported" ++ " for each vm.")),
         [("balloon", 1)])
    ∧ (parse_balloon [] c5Args).2
        = (if exceptOk (parse_balloon [] c5Args).1
           then ("balloon", 1) :: ([] : List (String × Nat)) else []) :=
  ⟨parse_balloon_unique_and_frame.1 [("balloon", 1)] c5Args (by decide),
   parse_balloon_unique_and_frame.2 [] c5Args⟩
